import Mathlib

/-!
Verification of the SocialMediaScraper repository.

The four scrapers (`facebook_follower_scraper.py`, `instagram_follower_scraper.py`,
`twitter_follower_scraper.py`, `youtube_follower_scraper.py`) share one structure:
a free-form-text count parser built on a `re.search` pattern, a multi-strategy
page locator, a per-account retry loop, and a batch loop over usernames.

Modelling choices (shallow embedding):
* Python strings are Lean `String`/`List Char`; `\d`, `\s` and `str.strip()` are
  modelled on their ASCII meaning (`0`-`9` digits, the six ASCII whitespace
  characters), which covers every input the claims mention.
* Python `float` values are modelled as exact rationals (`ℚ`).  Every value the
  examples of the spec produce is exactly representable as an IEEE double, and the
  products with the integer multipliers round to the exact rational result, so
  the rational model agrees with CPython on all inputs appearing in the claims.
* The `re.search` calls are modelled by a small backtracking matcher operating
  on suffix lists, ordered the way a leftmost/greedy regex engine tries
  alternatives; the group-1 extraction and the leftmost-scan of `re.search`
  are explicit.
* Selenium lookups are pure data: a strategy either threw (`none`) or yielded
  a list of element texts; a navigation attempt is described by a page value.
-/

namespace SMS

/-! ### Character classes of the regular expressions

The pattern in all four `parse_follower_count` functions starts with
`([\d,\.]+\s*[KMBkmb]?)`; group 1 is that bracketed part. -/

/-- `[\d,\.]` : a digit, comma or period. -/
def numChar (c : Char) : Bool := c.isDigit || c == ',' || c == '.'

/-- `\s` and the characters removed by `str.strip()` (ASCII). -/
def wsChar (c : Char) : Bool :=
  c == ' ' || c == '\t' || c == '\n' || c == '\r' ||
  c == Char.ofNat 11 || c == Char.ofNat 12

/-- `[KMBkmb]` : a magnitude-suffix letter. -/
def kmbChar (c : Char) : Bool :=
  c == 'K' || c == 'M' || c == 'B' || c == 'k' || c == 'm' || c == 'b'

/-- Remove trailing whitespace (second half of `str.strip()`). -/
def stripTrailing (l : List Char) : List Char :=
  (l.reverse.dropWhile wsChar).reverse

/-- `str.strip()` : drop trailing then leading whitespace. -/
def stripChars (l : List Char) : List Char :=
  (stripTrailing l).dropWhile wsChar

/-! ### A small backtracking regex matcher

A matcher maps an input suffix to the list of suffixes remaining after each
possible way of consuming a prefix, in the order a leftmost/greedy backtracking
engine (such as CPython `re`) tries them. -/

/-- Suffix-list matcher. -/
abbrev RM : Type := List Char → List (List Char)

/-- Match one character of a class. -/
def mcls (p : Char → Bool) : RM := fun s =>
  match s with
  | [] => []
  | c :: rest => if p c then [rest] else []

/-- Greedy `*` over a character class: longest run first. -/
def mclsStar (p : Char → Bool) : RM
  | [] => [[]]
  | c :: rest => if p c then mclsStar p rest ++ [c :: rest] else [c :: rest]

/-- Sequencing: all continuations of the first matcher, then the second. -/
def mseq (a b : RM) : RM := fun s => (a s).flatMap b

/-- Greedy `?` : consume first, fall back to the empty match. -/
def mopt (a : RM) : RM := fun s => a s ++ [s]

/-- Alternation, left branch preferred. -/
def malt (a b : RM) : RM := fun s => a s ++ b s

/-- Character comparison, optionally case-insensitive (for `re.IGNORECASE`). -/
def chEq (ci : Bool) (a b : Char) : Bool :=
  if ci then a.toLower == b.toLower else a == b

/-- Match a literal word. -/
def mlit (ci : Bool) : List Char → RM
  | [], s => [s]
  | _ :: _, [] => []
  | l :: ls, c :: rest => if chEq ci l c then mlit ci ls rest else []

/-- Greedy `+` over a character class. -/
def mclsPlus (p : Char → Bool) : RM := mseq (mcls p) (mclsStar p)

/-- Group 1 of every platform pattern: `[\d,\.]+\s*[KMBkmb]?`. -/
def groupPart : RM :=
  mseq (mclsPlus numChar) (mseq (mclsStar wsChar) (mopt (mcls kmbChar)))

def litFollower : List Char := String.toList "follower"
def litCapFollower : List Char := String.toList "Follower"
def litS : List Char := String.toList "s"
def litSubscriber : List Char := String.toList "subscriber"
def litPeopleFollowThis : List Char := String.toList "people follow this"

/-- Instagram tail after group 1: `\s*(?:followers?)?` with `re.IGNORECASE`. -/
def igTail : RM :=
  mseq (mclsStar wsChar)
    (mopt (mseq (mlit true litFollower) (mopt (mlit true litS))))

/-- Twitter tail after group 1: `\s*(?:Followers?)?` (case sensitive). -/
def twTail : RM :=
  mseq (mclsStar wsChar)
    (mopt (mseq (mlit false litCapFollower) (mopt (mlit false litS))))

/-- YouTube tail after group 1: `\s*(?:subscriber)s?` — the label is not
optional in this pattern. -/
def ytTail : RM :=
  mseq (mclsStar wsChar)
    (mseq (mlit false litSubscriber) (mopt (mlit false litS)))

/-- Facebook tail after group 1:
`\s*(?:people follow this|followers?)?` with `re.IGNORECASE`. -/
def fbTail : RM :=
  mseq (mclsStar wsChar)
    (mopt (malt (mlit true litPeopleFollowThis)
                (mseq (mlit true litFollower) (mopt (mlit true litS)))))

/-- Try the full pattern at one start position: the first group-1/tail
combination (in backtracking order) that succeeds yields group 1. -/
def tryMatchAt (tail : RM) (t : List Char) : Option (List Char) :=
  (groupPart t).findSome? (fun rest =>
    if (tail rest).isEmpty then none
    else some (t.take (t.length - rest.length)))

/-- `re.search` : scan start positions left to right, return group 1 of the
first position where the pattern matches. -/
def reSearchG (tail : RM) : List Char → Option (List Char)
  | [] => none
  | c :: rest =>
    match tryMatchAt tail (c :: rest) with
    | some g => some g
    | none => reSearchG tail rest

/-! ### Numeric conversion (`float(number_str) * multiplier`) -/

/-- Value of a digit string. -/
def natOfDigits (l : List Char) : ℕ :=
  l.foldl (fun n c => 10 * n + (c.toNat - 48)) 0

/-- Model of Python `float()` on the strings that reach it here (digits and at
most one period, possibly with surrounding whitespace); the IEEE value is
modelled as the exact rational `intpart.fracpart = (intpart ++ fracpart) / 10 ^
|fracpart|`, and a `ValueError` is `none`.  Built with `mkRat` on natural
numbers so that the result is kernel-computable. -/
def floatOfChars (l : List Char) : Option ℚ :=
  let t := stripChars l
  let ip := t.takeWhile Char.isDigit
  let rest := t.drop ip.length
  match rest with
  | [] => if ip.isEmpty then none else some (mkRat (natOfDigits ip) 1)
  | c :: frac =>
    if c == '.' && frac.all Char.isDigit && !(ip.isEmpty && frac.isEmpty)
    then some (mkRat (natOfDigits (ip ++ frac)) (10 ^ frac.length))
    else none

/-- Exact product of a rational with a natural number, written with `mkRat` so
that it is kernel-computable; `mulNatQ_eq` below checks it against `q * m`. -/
def mulNatQ (q : ℚ) (m : ℕ) : ℚ := mkRat (q.num * m) q.den

/-- The conversion applied to group 1: strip it, peel one trailing `K`/`M`/`B`
multiplier (compared after `.upper()`), remove commas, convert with `float`,
multiply; any conversion error was caught by the enclosing `try` and yields
`none`. -/
def countOfGroup (g : List Char) : Option ℚ :=
  let s0 := stripChars g
  match s0.getLast? with
  | none => none
  | some c =>
    let mult : ℕ :=
      if c == 'K' || c == 'k' then 1000
      else if c == 'M' || c == 'm' then 1000000
      else if c == 'B' || c == 'b' then 1000000000
      else 1
    let base := if kmbChar c then s0.dropLast else s0
    (floatOfChars (base.filter (fun d => !(d == ',')))).map (fun q => mulNatQ q mult)

/-- `parse_follower_count`, generic in the platform tail: strip the input,
run the search, convert group 1; no match or a conversion error is `none`. -/
def parseCountL (tail : RM) (text : List Char) : Option ℚ :=
  match reSearchG tail (stripChars text) with
  | none => none
  | some g => countOfGroup g

/-- `parse_follower_count` of `instagram_follower_scraper.py` (lines 180-206). -/
def parse_follower_count_instagram (text : String) : Option ℚ :=
  parseCountL igTail text.toList

/-- `parse_follower_count` of `twitter_follower_scraper.py` (lines 127-153). -/
def parse_follower_count_twitter (text : String) : Option ℚ :=
  parseCountL twTail text.toList

/-- `parse_follower_count` of `youtube_follower_scraper.py` (lines 136-162). -/
def parse_follower_count_youtube (text : String) : Option ℚ :=
  parseCountL ytTail text.toList

/-- `parse_follower_count` of `facebook_follower_scraper.py` (lines 114-140). -/
def parse_follower_count_facebook (text : String) : Option ℚ :=
  parseCountL fbTail text.toList

/-! ### Page locators

A Selenium lookup is pure data here: an element-finding strategy either threw
(`none`) or yielded the texts of the matched elements.  Single-element methods
(Instagram lines 290-309) yield at most one text. -/

/-- `text` is truthy and contains a digit (Instagram fallback filter,
line 330). -/
def hasDigit (t : String) : Bool := t.toList.any Char.isDigit

/-- The `for method in methods` loop of Instagram `get_follower_count`
(lines 312-320): a thrown method is skipped, an empty text is skipped, a text
whose parse is falsy (`None` or `0.0`) is skipped, the first truthy parse is
returned. -/
def igMethodsLoop : List (Option String) → Option ℚ
  | [] => none
  | none :: rest => igMethodsLoop rest
  | some t :: rest =>
    if t = "" then igMethodsLoop rest
    else
      match parse_follower_count_instagram t with
      | some q => if q = 0 then igMethodsLoop rest else some q
      | none => igMethodsLoop rest

/-- The fallback `for elem in elements` loop of Instagram `get_follower_count`
(lines 324-333): keep texts that are truthy and contain a digit, return the
first truthy parse. -/
def igElementsLoop : List String → Option ℚ
  | [] => none
  | t :: rest =>
    if t = "" then igElementsLoop rest
    else if hasDigit t then
      match parse_follower_count_instagram t with
      | some q => if q = 0 then igElementsLoop rest else some q
      | none => igElementsLoop rest
    else igElementsLoop rest

/-- Instagram `get_follower_count` (lines 278-339): four methods, then the
fallback element scan; the final `raise ValueError` is caught by the outer
handler and becomes `none`. -/
def get_follower_count_instagram (methods : List (Option String))
    (elements : List String) : Option ℚ :=
  match igMethodsLoop methods with
  | some q => some q
  | none => igElementsLoop elements

/-- Word-by-word comparison of a pattern against the front of a text. -/
def beginsWith : List Char → List Char → Bool
  | [], _ => true
  | _ :: _, [] => false
  | a :: asx, b :: bs => a == b && beginsWith asx bs

/-- Python `pat in text` : the pattern occurs contiguously somewhere. -/
def hasSub (pat : List Char) : List Char → Bool
  | [] => beginsWith pat []
  | c :: rest => beginsWith pat (c :: rest) || hasSub pat rest

/-- `in`-test for the word subscriber on the lowered text (YouTube line 237). -/
def ytKeyword (t : String) : Bool :=
  hasSub litSubscriber (t.toList.map Char.toLower)

/-- The `for element in elements` loop of YouTube `get_follower_counts`
(lines 234-242): keep texts containing the keyword, return the first parse
that is not `None` (a value of `0.0` is accepted: the test is `is not None`). -/
def ytScan : List String → Option ℚ
  | [] => none
  | t :: rest =>
    if ytKeyword t then
      match parse_follower_count_youtube t with
      | some q => some q
      | none => ytScan rest
    else ytScan rest

/-- The `for selector in selectors` loop of YouTube `get_follower_counts`
(lines 229-246): a selector that throws is skipped, otherwise its elements are
scanned; stop at the first selector that yields a parsed count. -/
def ytLocate : List (Option (List String)) → Option ℚ
  | [] => none
  | none :: rest => ytLocate rest
  | some es :: rest =>
    match ytScan es with
    | some q => some q
    | none => ytLocate rest

/-- One strategy of the YouTube table viewed as a value: `none` if it threw or
none of its elements produced a parsed count. -/
def ytStrat (o : Option (List String)) : Option ℚ := o.bind ytScan

/-- truthy text holding the word follow or the word people (lowered)
(Facebook lines 208, 228). -/
def fbKeyword (t : String) : Bool :=
  !(t == "") &&
    (hasSub (String.toList "follow") (t.toList.map Char.toLower) ||
     hasSub (String.toList "people") (t.toList.map Char.toLower))

/-- The inner `for element in elements` loop of Facebook (lines 206-211):
the first truthy keyword-bearing text is committed, without parsing it. -/
def fbScanElems : List String → Option String
  | [] => none
  | t :: rest => if fbKeyword t then some t else fbScanElems rest

/-- The `for selector in selectors` loop of Facebook (lines 203-215): a
selector that throws is skipped; stop at the first keyword-bearing text. -/
def fbFindText : List (Option (List String)) → Option String
  | [] => none
  | none :: rest => fbFindText rest
  | some es :: rest =>
    match fbScanElems es with
    | some t => some t
    | none => fbFindText rest

/-- Facebook locate step of one attempt (lines 193-238): scan the mobile
selector results of the mobile page, fall back to the desktop page, then parse the single
committed text; there is no second chance if that parse fails. -/
def fbLocate (mobile desktop : List (Option (List String))) : Option ℚ :=
  match fbFindText mobile with
  | some t => parse_follower_count_facebook t
  | none =>
    match fbFindText desktop with
    | some t => parse_follower_count_facebook t
    | none => none

/-! ### Per-account fetch cycles

One navigation attempt is described by a page value; the environment maps the
attempt number to the page seen on that attempt.  The retry loops run on the
fuel `max_retries - retries`, which is how the `while retries < max_retries`
guards bound them. -/

/-- What one Instagram navigation attempt encounters (lines 261-358):
the page-not-found banner, a page with method results and fallback elements,
or an exception raised during navigation. -/
inductive IgPage where
  | bannerNotFound : IgPage
  | content : List (Option String) → List String → IgPage
  | raising : String → IgPage

/-- Result record appended per account:
`{username, follower_count, timestamp, error}` (Instagram lines 361-366,
YouTube lines 271-276, Facebook lines 255-260). -/
structure ScrapeResult where
  username : String
  follower_count : Option ℚ
  timestamp : String
  error : Option String
deriving DecidableEq

/-- Outcome of the retry loop of one account: the count and error variables at
exit, plus the number of loop iterations (navigation attempts) executed. -/
structure LoopOut where
  count : Option ℚ
  err : Option String
  attempts : ℕ
deriving DecidableEq

/-- The Instagram `while retries < max_retries` loop (lines 261-358).
`fuel` is `max_retries - retries`; `a` numbers the attempt.  The banner breaks
with `error_message = "Page not found"`; a located count breaks; a locate that
returns `None` retries without setting an error; an exception retries after
recording its message. -/
def igFetchGo (env : ℕ → IgPage) : ℕ → ℕ → Option String → LoopOut
  | 0, a, e => ⟨none, e, a⟩
  | fuel + 1, a, e =>
    match env a with
    | IgPage.bannerNotFound => ⟨none, some "Page not found", a + 1⟩
    | IgPage.raising msg => igFetchGo env fuel (a + 1) (some msg)
    | IgPage.content methods elements =>
      match get_follower_count_instagram methods elements with
      | some q => ⟨some q, e, a + 1⟩
      | none => igFetchGo env fuel (a + 1) e

/-- Instagram per-account processing: run the loop, then append
`error: error_message if follower_count is None else None` (lines 361-366). -/
def igProcessAccount (env : ℕ → IgPage) (maxRetries : ℕ)
    (username timestamp : String) : ScrapeResult :=
  let o := igFetchGo env maxRetries 0 none
  ⟨username, o.count, timestamp, if o.count = none then o.err else none⟩

/-- Attempts consumed by one Instagram account. -/
def igAttempts (env : ℕ → IgPage) (maxRetries : ℕ) : ℕ :=
  (igFetchGo env maxRetries 0 none).attempts

/-- What one Facebook navigation attempt encounters (lines 184-253): a mobile
and a desktop selector results, or an exception. -/
inductive FbPage where
  | content : List (Option (List String)) → List (Option (List String)) → FbPage
  | raising : String → FbPage

/-- The Facebook `while retries < max_retries and follower_count is None`
loop (lines 184-253): a failed locate records
`"Could not find or parse follower count"` and retries; an exception records
its message and retries. -/
def fbFetchGo (env : ℕ → FbPage) : ℕ → ℕ → Option String → LoopOut
  | 0, a, e => ⟨none, e, a⟩
  | fuel + 1, a, e =>
    match env a with
    | FbPage.raising msg => fbFetchGo env fuel (a + 1) (some msg)
    | FbPage.content mobile desktop =>
      match fbLocate mobile desktop with
      | some q => ⟨some q, e, a + 1⟩
      | none =>
        fbFetchGo env fuel (a + 1)
          (some "Could not find or parse follower count")

/-- Facebook per-account processing (lines 255-260). -/
def fbProcessAccount (env : ℕ → FbPage) (maxRetries : ℕ)
    (username timestamp : String) : ScrapeResult :=
  let o := fbFetchGo env maxRetries 0 none
  ⟨username, o.count, timestamp, if o.count = none then o.err else none⟩

/-- What one Twitter navigation attempt encounters (lines 192-340): the quick
script loop extracted a count, the URL check detected a redirect (raised and
caught at line 314), the page load threw, or the page held no count. -/
inductive TwAttempt where
  | found : ℚ → TwAttempt
  | redirectDetected : TwAttempt
  | loadError : String → TwAttempt
  | noCount : TwAttempt

/-- The Twitter `while retries < max_retries` loop (lines 192-340): a found
count breaks; a redirect or load error increments `retries` and continues
(line 314-320); an attempt with no count increments `retries` (line 330). -/
def twFetchGo (env : ℕ → TwAttempt) : ℕ → ℕ → Option ℚ × ℕ
  | 0, a => (none, a)
  | fuel + 1, a =>
    match env a with
    | TwAttempt.found q => (some q, a + 1)
    | TwAttempt.redirectDetected => twFetchGo env fuel (a + 1)
    | TwAttempt.loadError _ => twFetchGo env fuel (a + 1)
    | TwAttempt.noCount => twFetchGo env fuel (a + 1)

/-- The Twitter result record has no `error` field (lines 323-327, 344-348). -/
structure TwResult where
  username : String
  follower_count : Option ℚ
  timestamp : String
deriving DecidableEq

/-- Twitter per-account processing: one record per username, appended on
success inside the loop or on failure after it. -/
def twProcessAccount (env : ℕ → TwAttempt) (maxRetries : ℕ)
    (username timestamp : String) : TwResult :=
  ⟨username, (twFetchGo env maxRetries 0).1, timestamp⟩

/-! ### Batch runners

The per-account body is abstracted as `step : String → Except String _` so the
skeleton of `try ... for ... except ... finally driver.quit()` can be stated:
`Except.error` is an exception escaping the processing of one account. -/

/-- The Instagram `for index, username in enumerate(usernames)` loop inside
`try` (lines 253-374): falsy usernames are skipped (line 254); an exception
escaping the processing of an account is caught by the outer handler (line 376),
which abandons the remaining accounts but keeps earlier results. -/
def igBatchGo (step : String → Except String ScrapeResult) :
    List String → List ScrapeResult × Bool
  | [] => ([], false)
  | u :: rest =>
    if u = "" then igBatchGo step rest
    else
      match step u with
      | Except.ok r =>
        let out := igBatchGo step rest
        (r :: out.1, out.2)
      | Except.error _ => ([], true)

/-- Results of a batch together with the number of `driver.quit()` calls made
by the `finally` block (lines 378-380). -/
structure BatchOutcome where
  results : List ScrapeResult
  quits : ℕ
deriving DecidableEq

/-- The Instagram batch skeleton (lines 229-382): if driver acquisition threw,
`driver` is `None` and the `finally` block does not quit; if login failed, the
raised exception is caught by the outer handler and the empty result list is
returned after one quit; otherwise the account loop runs and the `finally`
block quits exactly once on every path. -/
def igBatchRun (acquired loginOk : Bool)
    (step : String → Except String ScrapeResult)
    (usernames : List String) : BatchOutcome :=
  if acquired then
    if loginOk then ⟨(igBatchGo step usernames).1, 1⟩ else ⟨[], 1⟩
  else ⟨[], 0⟩

/-- The Instagram batch on exception-free accounts: one timestamp captured at
batch start (line 230) is written into every record. -/
def igBatch (pageFor : String → ℕ → IgPage) (maxRetries : ℕ)
    (timestamp : String) (usernames : List String) : List ScrapeResult :=
  (igBatchRun true true
    (fun u => Except.ok (igProcessAccount (pageFor u) maxRetries u timestamp))
    usernames).results

/-- The Twitter `for username in usernames` loop (lines 188-348): no username
is skipped, and there is no enclosing handler, so an exception escaping one
processing of an account propagates out of `get_follower_counts` (abandoning all
results) after the `finally` block quits the driver. -/
def twBatchGo (step : String → Except String TwResult) :
    List String → Except String (List TwResult)
  | [] => Except.ok []
  | u :: rest =>
    match step u with
    | Except.ok r =>
      match twBatchGo step rest with
      | Except.ok rs => Except.ok (r :: rs)
      | Except.error e => Except.error e
    | Except.error e => Except.error e

/-- Twitter batch results plus `driver.quit()` count. -/
structure TwBatchOutcome where
  results : Except String (List TwResult)
  quits : ℕ

/-- The Twitter batch skeleton (lines 165-354): `finally` quits whenever the
driver was acquired; a failed acquisition propagates with no quit. -/
def twBatchRun (acquired : Bool) (step : String → Except String TwResult)
    (usernames : List String) : TwBatchOutcome :=
  if acquired then ⟨twBatchGo step usernames, 1⟩
  else ⟨Except.error "session acquisition failed", 0⟩

/-- The Twitter batch on exception-free accounts. -/
def twBatch (envFor : String → ℕ → TwAttempt) (maxRetries : ℕ)
    (timestamp : String) (usernames : List String) : List TwResult :=
  match (twBatchRun true
      (fun u => Except.ok (twProcessAccount (envFor u) maxRetries u timestamp))
      usernames).results with
  | Except.ok rs => rs
  | Except.error _ => []

/-! ### Specification-side descriptions

These restate the candidate filtering of the locators the way the spec
describes it (flatten the strategy table, filter, take a first element), to be
compared with the loop implementations above. -/

/-- Acceptance test one Instagram method candidate must pass (truthy text,
truthy parse). -/
def igAccept (t : String) : Option ℚ :=
  if t = "" then none
  else
    match parse_follower_count_instagram t with
    | some q => if q = 0 then none else some q
    | none => none

/-- Acceptance test one Instagram fallback element must pass (truthy text
with a digit, truthy parse). -/
def igElemAccept (t : String) : Option ℚ :=
  if t = "" then none
  else if hasDigit t then
    match parse_follower_count_instagram t with
    | some q => if q = 0 then none else some q
    | none => none
  else none

/-- Value of one Instagram method: `none` if it threw or its candidate is not
accepted. -/
def igMethodVal (o : Option String) : Option ℚ := o.bind igAccept

/-- A per-account step that raises on account `"a"` and succeeds elsewhere,
used to exercise the batch skeleton under an unhandled account error. -/
def stepRaisingOnA (u : String) : Except String ScrapeResult :=
  if u = "a" then Except.error "boom"
  else Except.ok ⟨u, some 1, "ts", none⟩

end SMS

namespace SMS

/-! ### Library-level helper lemmas -/

/-- Sanity: `mulNatQ` is ordinary multiplication. -/
theorem mulNatQ_eq (q : ℚ) (m : ℕ) : mulNatQ q m = q * (m : ℚ) := by
  rw [mulNatQ, Rat.mkRat_eq_div]
  push_cast
  rw [mul_div_right_comm, Rat.num_div_den]

/-- The pattern cannot match at a position whose character is outside
`[\d,\.]`. -/
theorem tryMatchAt_not_num (tail : RM) (c : Char) (l : List Char)
    (h : numChar c = false) : tryMatchAt tail (c :: l) = none := by
  simp [tryMatchAt, groupPart, mseq, mclsPlus, mcls, h]

/-- `re.search` skips any leading text free of digits, commas and periods. -/
theorem reSearchG_append (tail : RM) (pre s : List Char)
    (h : ∀ c ∈ pre, numChar c = false) :
    reSearchG tail (pre ++ s) = reSearchG tail s := by
  induction pre with
  | nil => rfl
  | cons c pre ih =>
    have hc := h c (List.mem_cons_self c pre)
    have hp : ∀ d ∈ pre, numChar d = false :=
      fun d hd => h d (List.mem_cons_of_mem c hd)
    rw [List.cons_append]
    simp [reSearchG, tryMatchAt_not_num tail c _ hc, ih hp]

/-- `dropWhile` is the identity when no element satisfies the test. -/
theorem dropWhile_eq_self (p : Char → Bool) (l : List Char)
    (h : ∀ c ∈ l, p c = false) : l.dropWhile p = l := by
  cases l with
  | nil => rfl
  | cons c rest =>
    rw [List.dropWhile_cons]
    simp [h c (List.mem_cons_self c rest)]

/-- Trailing-whitespace stripping passes over a whitespace-free front part. -/
theorem stripTrailing_append (a b : List Char)
    (h : ∀ c ∈ a, wsChar c = false) :
    stripTrailing (a ++ b) = a ++ stripTrailing b := by
  have ha : ∀ c ∈ a.reverse, wsChar c = false := by
    intro c hc
    exact h c (List.mem_reverse.mp hc)
  unfold stripTrailing
  rw [List.reverse_append, List.dropWhile_append]
  by_cases hb : (b.reverse.dropWhile wsChar).isEmpty
  · rw [List.isEmpty_iff] at hb
    simp [hb, dropWhile_eq_self wsChar a.reverse ha]
  · simp only [hb, if_neg, Bool.not_eq_true, if_false]
    rw [List.reverse_append, List.reverse_reverse]

/-- Whitespace characters are outside `[\d,\.]`. -/
theorem wsChar_not_num (c : Char) (h : wsChar c = true) : numChar c = false := by
  unfold wsChar at h
  simp only [Bool.or_eq_true, beq_iff_eq] at h
  rcases h with ((((h | h) | h) | h) | h) | h <;> subst h <;> decide

/-- Two texts on which the search agrees parse alike. -/
theorem parseCountL_congr (tail : RM) (x y : List Char)
    (h : reSearchG tail (stripChars x) = reSearchG tail (stripChars y)) :
    parseCountL tail x = parseCountL tail y := by
  unfold parseCountL
  rw [h]

end SMS

/-- C2 counterexample: the claim fails on the code in two ways.  First, the
trailing label does not anchor the match on the optional-label platforms: the
Instagram parser returns the leftmost numeric token, so a different count
earlier on the same line changes the parsed value (`"5 posts 100 followers"`
yields 5, not the 100 of `"100 followers"`).  Second, the YouTube pattern
`([\d,\.]+\s*[KMBkmb]?)\s*(?:subscriber)s?` requires the label, so it is not
optional there (`"100K"` fails to parse). -/
theorem C2_counterexample :
    SMS.parse_follower_count_instagram "5 posts 100 followers" = some 5 ∧
    SMS.parse_follower_count_instagram "100 followers" = some 100 ∧
    SMS.parse_follower_count_youtube "100K" = none ∧
    SMS.parse_follower_count_youtube "100K subscribers" = some 100000 := by
  refine ⟨?_, ?_, ?_, ?_⟩ <;> decide

/-- C2 amended: for every platform pattern, the parser extracts the leftmost
maximal token of digits/commas/periods (with optional whitespace and a single
K/M/B letter); the trailing label is discarded where it matches, and is
mandatory for YouTube.  Surrounding text changes nothing only when it precedes
the token and contains no digit, comma, period or whitespace: removing such a
front part leaves the parse unchanged. -/
theorem C2_anchoring_amended (tail : SMS.RM) (pre s : List Char)
    (h : ∀ c ∈ pre, SMS.numChar c = false ∧ SMS.wsChar c = false) :
    SMS.parseCountL tail (pre ++ s) = SMS.parseCountL tail s := by
  apply SMS.parseCountL_congr
  rw [SMS.stripChars, SMS.stripChars,
    SMS.stripTrailing_append pre s (fun c hc => (h c hc).2)]
  cases pre with
  | nil => rfl
  | cons c pre =>
    rw [List.cons_append, List.dropWhile_cons, (h c (List.mem_cons_self c pre)).2]
    simp only [Bool.false_eq_true, if_false]
    have hsplit := List.takeWhile_append_dropWhile SMS.wsChar (SMS.stripTrailing s)
    calc SMS.reSearchG tail (c :: (pre ++ SMS.stripTrailing s))
        = SMS.reSearchG tail
            ((c :: (pre ++ (SMS.stripTrailing s).takeWhile SMS.wsChar)) ++
              (SMS.stripTrailing s).dropWhile SMS.wsChar) := by
          rw [← hsplit]
          simp [List.append_assoc]
      _ = SMS.reSearchG tail ((SMS.stripTrailing s).dropWhile SMS.wsChar) := by
          apply SMS.reSearchG_append
          intro d hd
          rcases List.mem_cons.mp hd with hdc | hd2
          · exact hdc ▸ (h c (List.mem_cons_self c pre)).1
          · rcases List.mem_append.mp hd2 with hdp | hdt
            · exact (h d (List.mem_cons_of_mem c hdp)).1
            · exact SMS.wsChar_not_num d (List.mem_takeWhile_imp hdt)

namespace SMS

/-- The YouTube element loop is: filter by keyword, first successful parse. -/
theorem ytScan_eq (es : List String) :
    ytScan es = (es.filter ytKeyword).findSome? parse_follower_count_youtube := by
  induction es with
  | nil => rfl
  | cons t rest ih =>
    by_cases hk : ytKeyword t = true
    · rw [ytScan, if_pos hk, List.filter_cons_of_pos hk, List.findSome?_cons]
      cases hp : parse_follower_count_youtube t <;> simp [hp, ih]
    · rw [ytScan, if_neg hk, ih,
        List.filter_cons_of_neg (by simpa using hk)]

/-- The YouTube strategy loop is: flatten the non-throwing strategies in
order, filter by keyword, first successful parse. -/
theorem ytLocate_eq (ss : List (Option (List String))) :
    ytLocate ss =
      (((ss.filterMap id).flatten).filter ytKeyword).findSome?
        parse_follower_count_youtube := by
  induction ss with
  | nil => rfl
  | cons o rest ih =>
    cases o with
    | none => simpa [ytLocate, List.filterMap_cons] using ih
    | some es =>
      simp only [ytLocate, List.filterMap_cons, id_eq, List.flatten_cons,
        List.filter_append, List.findSome?_append]
      rw [← ytScan_eq, ← ih]
      cases hs : ytScan es <;> simp [hs, Option.or]

/-- The Facebook element loop is: first keyword-bearing text. -/
theorem fbScanElems_eq (es : List String) :
    fbScanElems es = (es.filter fbKeyword).head? := by
  induction es with
  | nil => rfl
  | cons t rest ih =>
    by_cases hk : fbKeyword t = true
    · rw [fbScanElems, if_pos hk, List.filter_cons_of_pos hk]
      rfl
    · rw [fbScanElems, if_neg hk, ih,
        List.filter_cons_of_neg (by simpa using hk)]

/-- The Facebook selector loop is: flatten the non-throwing strategies, take
the first keyword-bearing text. -/
theorem fbFindText_eq (ss : List (Option (List String))) :
    fbFindText ss = (((ss.filterMap id).flatten).filter fbKeyword).head? := by
  induction ss with
  | nil => rfl
  | cons o rest ih =>
    cases o with
    | none => simpa [fbFindText, List.filterMap_cons] using ih
    | some es =>
      simp only [fbFindText, List.filterMap_cons, id_eq, List.flatten_cons,
        List.filter_append, List.head?_append]
      rw [← fbScanElems_eq, ← ih]
      cases hs : fbScanElems es <;> simp [hs, Option.or]

/-- The Instagram method loop is: first accepted candidate of the
non-throwing methods. -/
theorem igMethodsLoop_eq (M : List (Option String)) :
    igMethodsLoop M = (M.filterMap id).findSome? igAccept := by
  induction M with
  | nil => rfl
  | cons o rest ih =>
    cases o with
    | none => simpa [igMethodsLoop, List.filterMap_cons] using ih
    | some t =>
      simp only [List.filterMap_cons, id_eq, List.findSome?_cons]
      by_cases he : t = ""
      · subst he
        simpa [igMethodsLoop, igAccept] using ih
      · rw [igMethodsLoop, if_neg he]
        rw [igAccept, if_neg he]
        cases hp : parse_follower_count_instagram t with
        | none => simpa using ih
        | some q =>
          by_cases hz : q = 0
          · simpa [hz] using ih
          · simp [hz]

/-- The Instagram fallback loop is: first accepted element. -/
theorem igElementsLoop_eq (E : List String) :
    igElementsLoop E = E.findSome? igElemAccept := by
  induction E with
  | nil => rfl
  | cons t rest ih =>
    simp only [List.findSome?_cons]
    by_cases he : t = ""
    · subst he
      simpa [igElementsLoop, igElemAccept] using ih
    · by_cases hd : hasDigit t = true
      · rw [igElementsLoop, if_neg he, if_pos hd]
        rw [igElemAccept, if_neg he, if_pos hd]
        cases hp : parse_follower_count_instagram t with
        | none => simpa using ih
        | some q =>
          by_cases hz : q = 0
          · simpa [hz] using ih
          · simp [hz]
      · rw [igElementsLoop, if_neg he, if_neg hd, ih,
          igElemAccept, if_neg he, if_neg hd]

end SMS

/-- C3 counterexample: the claim fails on the code at concrete inputs.
Facebook commits to the first keyword-bearing candidate before parsing: with
candidates `["follow me", "100 followers"]` the locate step returns `none`
even though the later candidate carries the keyword, a digit, and parses to
100 — a keyword-matching candidate that fails to parse does prevent later
candidates from being tried.  Instagram applies no keyword/digit filter in its
method loop: the candidate `"42"`, containing no platform keyword, is returned
as the value. -/
theorem C3_counterexample :
    SMS.fbLocate [ some [ "follow me", "100 followers" ] ] [ ] = none ∧
    SMS.parse_follower_count_facebook "100 followers" = some 100 ∧
    SMS.fbKeyword "100 followers" = true ∧
    SMS.hasDigit "100 followers" = true ∧
    SMS.get_follower_count_instagram [ some "42" ] [ ] = some 42 := by
  refine ⟨?_, ?_, ?_, ?_, ?_⟩ <;> decide

/-- C3 amended: candidate filtering is platform specific.  YouTube flattens
its strategy table in order, keeps candidates containing `subscriber`
(case-insensitively, with no digit requirement) and returns the value of the
first candidate the parser accepts, parse failures not blocking later
candidates.  Facebook flattens its mobile then desktop lookups, keeps truthy
candidates containing `follow` or `people`, but commits to the FIRST such
candidate: the locate step is the parse of that candidate, failed or not.
The Instagram method loop applies no keyword or digit test — any truthy
candidate whose parse is truthy is returned — and only its fallback loop
requires a digit. -/
theorem C3_filtering_amended (ss : List (Option (List String)))
    (mob desk : List (Option (List String)))
    (M : List (Option String)) (E : List String) :
    SMS.ytLocate ss =
      (((ss.filterMap id).flatten).filter SMS.ytKeyword).findSome?
        SMS.parse_follower_count_youtube ∧
    SMS.fbLocate mob desk =
      ((((mob.filterMap id).flatten ++ (desk.filterMap id).flatten).filter
          SMS.fbKeyword).head?).bind SMS.parse_follower_count_facebook ∧
    SMS.get_follower_count_instagram M E =
      ((M.filterMap id).findSome? SMS.igAccept).or
        (E.findSome? SMS.igElemAccept) := by
  refine ⟨SMS.ytLocate_eq ss, ?_, ?_⟩
  · rw [List.filter_append, List.head?_append, ← SMS.fbFindText_eq,
      ← SMS.fbFindText_eq, SMS.fbLocate]
    cases hm : SMS.fbFindText mob <;> cases hd : SMS.fbFindText desk <;>
      simp [Option.or]
  · rw [SMS.get_follower_count_instagram, SMS.igMethodsLoop_eq,
      SMS.igElementsLoop_eq]
    cases hm : (M.filterMap id).findSome? SMS.igAccept <;> simp [Option.or]

namespace SMS

/-- YouTube locate over a table whose front strategies all fail: the result is
that of the first succeeding strategy, whatever follows it. -/
theorem ytLocate_append_success (pre post : List (Option (List String)))
    (es : List String) (q : ℚ)
    (hpre : ∀ o ∈ pre, ytStrat o = none) (hq : ytScan es = some q) :
    ytLocate (pre ++ some es :: post) = some q := by
  induction pre with
  | nil => simp [ytLocate, hq]
  | cons o pre ih =>
    have ho := hpre o (List.mem_cons_self o pre)
    have hp : ∀ x ∈ pre, ytStrat x = none :=
      fun x hx => hpre x (List.mem_cons_of_mem o hx)
    cases o with
    | none => simpa [ytLocate] using ih hp
    | some es0 =>
      have h0 : ytScan es0 = none := by simpa [ytStrat] using ho
      rw [List.cons_append]
      simp [ytLocate, h0, ih hp]

/-- Instagram locate over a method table whose front methods all fail. -/
theorem igLocate_append_success (pre post : List (Option String)) (t : String)
    (r : ℚ) (E : List String)
    (hpre : ∀ o ∈ pre, igMethodVal o = none) (ht : igAccept t = some r) :
    get_follower_count_instagram (pre ++ some t :: post) E = some r := by
  have hm : igMethodsLoop (pre ++ some t :: post) = some r := by
    rw [igMethodsLoop_eq, List.filterMap_append, List.findSome?_append]
    have hnone : (pre.filterMap id).findSome? igAccept = none := by
      rw [List.findSome?_eq_none_iff]
      intro x hx
      rcases List.mem_filterMap.mp hx with ⟨o, ho, hid⟩
      have hmv := hpre o ho
      have hox : o = some x := hid
      rw [hox] at hmv
      simpa [igMethodVal] using hmv
    rw [hnone, List.filterMap_cons]
    simp [List.findSome?_cons, ht, Option.or]
  rw [get_follower_count_instagram, hm]

/-- The Instagram retry loop when every attempt shows a page whose locate
fails: it runs through all its fuel, never sets the count, and leaves the
error variable untouched. -/
theorem igFetchGo_locate_none (env : ℕ → IgPage)
    (h : ∀ n, ∃ M E, env n = IgPage.content M E ∧
        get_follower_count_instagram M E = none) :
    ∀ fuel a e, igFetchGo env fuel a e = ⟨none, e, a + fuel⟩ := by
  intro fuel
  induction fuel with
  | zero => intro a e; rfl
  | succ n ih =>
    intro a e
    obtain ⟨M, E, henv, hloc⟩ := h a
    rw [igFetchGo, henv]
    simp only [hloc]
    rw [ih (a + 1) e]
    have h1 : a + 1 + n = a + (n + 1) := by omega
    rw [h1]

/-- The Facebook retry loop when the locate of every attempt fails: it runs
through all its fuel and, once it has iterated at least once, leaves the
fixed no-parse error message. -/
theorem fbFetchGo_locate_none (env : ℕ → FbPage)
    (h : ∀ n, ∃ mob desk, env n = FbPage.content mob desk ∧
        fbLocate mob desk = none) :
    ∀ fuel a e, fbFetchGo env fuel a e =
      ⟨none,
        if fuel = 0 then e else some "Could not find or parse follower count",
        a + fuel⟩ := by
  intro fuel
  induction fuel with
  | zero => intro a e; rfl
  | succ n ih =>
    intro a e
    obtain ⟨mob, desk, henv, hloc⟩ := h a
    rw [fbFetchGo, henv]
    simp only [hloc]
    rw [ih (a + 1) (some "Could not find or parse follower count")]
    have h1 : a + 1 + n = a + (n + 1) := by omega
    rw [h1]
    cases n <;> simp

/-- The Twitter retry loop when every attempt detects a redirect: it runs
through all its fuel. -/
theorem twFetchGo_redirect (env : ℕ → TwAttempt)
    (h : ∀ n, env n = TwAttempt.redirectDetected) :
    ∀ fuel a, twFetchGo env fuel a = (none, a + fuel) := by
  intro fuel
  induction fuel with
  | zero => intro a; rfl
  | succ n ih =>
    intro a
    rw [twFetchGo, h a, ih (a + 1)]
    have : a + 1 + n = a + (n + 1) := by omega
    rw [this]

end SMS

/-- C4: Page Locator fail-fast and throw tolerance, for the two cited
locators.  YouTube: if every strategy before some strategy `es` either threw
(`none`) or produced no accepted candidate, and `es` yields a parsed count,
then the locate result is that count regardless of the strategies after `es`
(they are never consulted).  Instagram: the same for its method table.  A
throwing strategy is just a `none` entry of the front part, so lookup
failures are non-fatal. -/
theorem C4_failfast_throw_tolerance
    (ypre ypost : List (Option (List String))) (es : List String) (q : ℚ)
    (hy : ∀ o ∈ ypre, SMS.ytStrat o = none) (hq : SMS.ytScan es = some q)
    (ipre ipost : List (Option String)) (t : String) (r : ℚ) (E : List String)
    (hi : ∀ o ∈ ipre, SMS.igMethodVal o = none) (ht : SMS.igAccept t = some r) :
    SMS.ytLocate (ypre ++ some es :: ypost) = some q ∧
    SMS.get_follower_count_instagram (ipre ++ some t :: ipost) E = some r :=
  ⟨SMS.ytLocate_append_success ypre ypost es q hy hq,
   SMS.igLocate_append_success ipre ipost t r E hi ht⟩

/-- C4 witness: a throwing strategy and a keyword-less strategy precede the
succeeding one; the result ignores the later strategy. -/
theorem C4_failfast_throw_tolerance_witness :
    (∀ o ∈ [ none, some [ "no counts here" ] ],
        SMS.ytStrat o = none) ∧
    SMS.ytScan [ "10 subscribers" ] = some 10 ∧
    (∀ o ∈ [ none, some "" ], SMS.igMethodVal o = none) ∧
    SMS.igAccept "7 followers" = some 7 ∧
    SMS.ytLocate
        ([ none, some [ "no counts here" ] ] ++
          some [ "10 subscribers" ] :: [ some [ "99 subscribers" ] ]) =
      some 10 ∧
    SMS.get_follower_count_instagram
        ([ none, some "" ] ++ some "7 followers" :: [ some "99" ]) [ ] =
      some 7 := by
  refine ⟨by decide, by decide, by decide, by decide, ?_, ?_⟩
  · exact (C4_failfast_throw_tolerance
      [ none, some [ "no counts here" ] ] [ some [ "99 subscribers" ] ]
      [ "10 subscribers" ] 10 (by decide) (by decide)
      [ none, some "" ] [ some "99" ] "7 followers" 7 [ ]
      (by decide) (by decide)).1
  · exact (C4_failfast_throw_tolerance
      [ none, some [ "no counts here" ] ] [ some [ "99 subscribers" ] ]
      [ "10 subscribers" ] 10 (by decide) (by decide)
      [ none, some "" ] [ some "99" ] "7 followers" 7 [ ]
      (by decide) (by decide)).2

/-- C5 counterexample: on Instagram the claim fails at a concrete input.
With `max_retries = 2` and every attempt showing a page whose locate step
yields nothing, the finalized result has an EMPTY error reason: the Instagram
loop only sets `error_message` on the page-not-found banner or on an
exception, never on a plain locate failure, so the terminal failure record is
`{count: None, error: None}`. -/
theorem C5_counterexample :
    SMS.igProcessAccount (fun _ => SMS.IgPage.content [ ] [ ]) 2 "user" "ts" =
      ⟨ "user", none, "ts", none⟩ ∧
    SMS.igAttempts (fun _ => SMS.IgPage.content [ ] [ ]) 2 = 2 := by
  refine ⟨?_, ?_⟩ <;> decide

/-- C5 amended: for every account whose every attempt yields NotFound (no
exception), the cycle performs exactly `max_retries` attempts and finalizes a
terminal failure with no count; the error reason is the non-empty
`"Could not find or parse follower count"` on Facebook but remains empty
(`None`) on Instagram. -/
theorem C5_retry_bound_amended (mr : ℕ)
    (Ms : ℕ → List (Option String)) (Es : ℕ → List String)
    (hig : ∀ n, SMS.get_follower_count_instagram (Ms n) (Es n) = none)
    (mob desk : ℕ → List (Option (List String)))
    (hfb : ∀ n, SMS.fbLocate (mob n) (desk n) = none) :
    SMS.igFetchGo (fun n => SMS.IgPage.content (Ms n) (Es n)) mr 0 none =
      ⟨none, none, mr⟩ ∧
    SMS.fbFetchGo (fun n => SMS.FbPage.content (mob n) (desk n)) (mr + 1) 0
        none =
      ⟨none, some "Could not find or parse follower count", mr + 1⟩ := by
  constructor
  · rw [SMS.igFetchGo_locate_none _ (fun n => ⟨Ms n, Es n, rfl, hig n⟩) mr 0
      none]
    rw [Nat.zero_add]
  · rw [SMS.fbFetchGo_locate_none _ (fun n => ⟨mob n, desk n, rfl, hfb n⟩)
      (mr + 1) 0 none]
    simp

/-- C5 amended, witness. -/
theorem C5_retry_bound_amended_witness :
    (∀ _ : ℕ, SMS.get_follower_count_instagram [ ] [ ] = none) ∧
    (∀ _ : ℕ, SMS.fbLocate [ ] [ ] = none) ∧
    SMS.igFetchGo (fun _ => SMS.IgPage.content [ ] [ ]) 2 0 none =
      ⟨none, none, 2⟩ ∧
    SMS.fbFetchGo (fun _ => SMS.FbPage.content [ ] [ ]) 2 0 none =
      ⟨none, some "Could not find or parse follower count", 2⟩ :=
  ⟨fun _ => rfl, fun _ => rfl,
   (C5_retry_bound_amended 2 (fun _ => [ ]) (fun _ => [ ]) (fun _ => rfl)
     (fun _ => [ ]) (fun _ => [ ]) (fun _ => rfl)).1,
   (C5_retry_bound_amended 1 (fun _ => [ ]) (fun _ => [ ]) (fun _ => rfl)
     (fun _ => [ ]) (fun _ => [ ]) (fun _ => rfl)).2⟩

/-- C6 counterexample: on Twitter the claim fails at a concrete input.  A
redirect away from the profile (the "redirect-to-home" indicator, raised at
line 205 and caught at line 314) is treated as a retryable page-load error:
with the default `max_retries = 3` and every navigation redirecting, the
account consumes all 3 attempts instead of terminating after one. -/
theorem C6_counterexample :
    SMS.twFetchGo (fun _ => SMS.TwAttempt.redirectDetected) 3 0 = (none, 3) := by
  decide

/-- C6 amended: the page-not-found banner is terminal on Instagram — exactly
one attempt, error `"Page not found"`, no count, for any positive retry
ceiling; but on Twitter a redirect indicator is retried, consuming the full
`max_retries` attempts. -/
theorem C6_terminal_notfound_amended (env : ℕ → SMS.IgPage) (mr : ℕ)
    (h : env 0 = SMS.IgPage.bannerNotFound)
    (tenv : ℕ → SMS.TwAttempt) (tmr : ℕ)
    (ht : ∀ n, tenv n = SMS.TwAttempt.redirectDetected) :
    SMS.igFetchGo env (mr + 1) 0 none = ⟨none, some "Page not found", 1⟩ ∧
    SMS.twFetchGo tenv tmr 0 = (none, tmr) := by
  constructor
  · rw [SMS.igFetchGo, h]
  · rw [SMS.twFetchGo_redirect tenv ht tmr 0, Nat.zero_add]

/-- C6 amended, witness. -/
theorem C6_terminal_notfound_amended_witness :
    (fun _ : ℕ => SMS.IgPage.bannerNotFound) 0 = SMS.IgPage.bannerNotFound ∧
    (∀ n : ℕ, (fun _ : ℕ => SMS.TwAttempt.redirectDetected) n =
        SMS.TwAttempt.redirectDetected) ∧
    SMS.igFetchGo (fun _ => SMS.IgPage.bannerNotFound) 2 0 none =
      ⟨none, some "Page not found", 1⟩ ∧
    SMS.twFetchGo (fun _ => SMS.TwAttempt.redirectDetected) 3 0 = (none, 3) :=
  ⟨rfl, fun _ => rfl,
   (C6_terminal_notfound_amended (fun _ => SMS.IgPage.bannerNotFound) 1 rfl
     (fun _ => SMS.TwAttempt.redirectDetected) 3 (fun _ => rfl)).1,
   (C6_terminal_notfound_amended (fun _ => SMS.IgPage.bannerNotFound) 1 rfl
     (fun _ => SMS.TwAttempt.redirectDetected) 3 (fun _ => rfl)).2⟩

/-- C7 counterexample: the exclusivity invariant fails at a concrete input.
An Instagram account whose every attempt yields an unparseable candidate
finishes with BOTH fields absent: `{count: None, error: None}` — "exactly one
of count and error meaningfully populated" is violated on the failure side. -/
theorem C7_counterexample :
    SMS.igProcessAccount (fun _ => SMS.IgPage.content [ some "banana" ] [ ]) 2
        "acct" "ts" =
      ⟨ "acct", none, "ts", none⟩ := by
  decide

/-- C7 amended: at most one of `count` and `error` is populated — on success
the error is cleared (even if an earlier attempt had recorded one), and a
populated error implies no count — but on failure the error may also be
absent: Instagram records none for a plain locate failure, and the Twitter
result record carries no error field at all.  Shown for the Instagram and
Facebook per-account records, over every environment. -/
theorem C7_exclusivity_amended (env : ℕ → SMS.IgPage)
    (fenv : ℕ → SMS.FbPage) (mr : ℕ) (u ts : String) :
    ((SMS.igProcessAccount env mr u ts).follower_count = none ∨
      (SMS.igProcessAccount env mr u ts).error = none) ∧
    ((SMS.fbProcessAccount fenv mr u ts).follower_count = none ∨
      (SMS.fbProcessAccount fenv mr u ts).error = none) := by
  constructor
  · rw [SMS.igProcessAccount]
    cases h : (SMS.igFetchGo env mr 0 none).count <;> simp [h]
  · rw [SMS.fbProcessAccount]
    cases h : (SMS.fbFetchGo fenv mr 0 none).count <;> simp [h]

namespace SMS

/-- The Instagram batch loop on exception-free steps: one record per truthy
username, in input order. -/
theorem igBatchGo_ok (f : String → ScrapeResult) (us : List String) :
    igBatchGo (fun u => Except.ok (f u)) us =
      ((us.filter (fun u => !(u == ""))).map f, false) := by
  induction us with
  | nil => rfl
  | cons u rest ih =>
    by_cases hu : u = ""
    · subst hu
      simpa [igBatchGo, List.filter_cons] using ih
    · simp [igBatchGo, hu, List.filter_cons, ih]

/-- The Twitter batch loop on exception-free steps: one record per username,
in input order. -/
theorem twBatchGo_ok (f : String → TwResult) (us : List String) :
    twBatchGo (fun u => Except.ok (f u)) us = Except.ok (us.map f) := by
  induction us with
  | nil => rfl
  | cons u rest ih => simp [twBatchGo, ih]

/-- The locate step rejects every candidate that parses to exactly zero. -/
theorem igLocate_zero (M : List (Option String)) (E : List String)
    (hM : ∀ t : String, some t ∈ M →
        parse_follower_count_instagram t = some 0)
    (hE : ∀ t ∈ E, parse_follower_count_instagram t = some 0) :
    get_follower_count_instagram M E = none := by
  have hempty : parse_follower_count_instagram "" = none := rfl
  rw [get_follower_count_instagram, igMethodsLoop_eq, igElementsLoop_eq]
  have hm : (M.filterMap id).findSome? igAccept = none := by
    rw [List.findSome?_eq_none_iff]
    intro x hx
    rcases List.mem_filterMap.mp hx with ⟨o, ho, hid⟩
    have hox : o = some x := hid
    have hpx := hM x (hox ▸ ho)
    rw [igAccept]
    by_cases hx0 : x = ""
    · rw [hx0, hempty] at hpx
      exact absurd hpx (by simp)
    · simp [hx0, hpx]
  have he : E.findSome? igElemAccept = none := by
    rw [List.findSome?_eq_none_iff]
    intro t ht
    have hpt := hE t ht
    rw [igElemAccept]
    by_cases ht0 : t = ""
    · rw [ht0, hempty] at hpt
      exact absurd hpt (by simp)
    · by_cases hd : hasDigit t = true <;> simp [ht0, hd, hpt]
  rw [hm, he]

end SMS

/-- C8 counterexample: the claim fails at a concrete input.  The Instagram
loop skips falsy usernames (`if not username: continue`), so the batch for
the one-element input `[""]` accumulates zero results, not one per input
account. -/
theorem C8_counterexample :
    SMS.igBatch (fun _ _ => SMS.IgPage.content [ ] [ ]) 1 "ts" [ "" ] = [ ] ∧
    ([ "" ] : List String).length = 1 := by
  refine ⟨?_, ?_⟩ <;> decide

/-- C8 amended: the batch runner processes accounts strictly sequentially in
input order and stamps every record with the single timestamp captured at
batch start; Twitter accumulates exactly one record per input account, while
Instagram accumulates exactly one record per TRUTHY (non-empty) input
account, skipping empty usernames. -/
theorem C8_batch_order_amended (pageFor : String → ℕ → SMS.IgPage) (mr : ℕ)
    (ts : String) (us : List String)
    (envFor : String → ℕ → SMS.TwAttempt) :
    (SMS.igBatch pageFor mr ts us).map SMS.ScrapeResult.username =
      us.filter (fun u => !(u == "")) ∧
    (SMS.igBatch pageFor mr ts us).map SMS.ScrapeResult.timestamp =
      (us.filter (fun u => !(u == ""))).map (fun _ => ts) ∧
    (SMS.twBatch envFor mr ts us).map SMS.TwResult.username = us ∧
    (SMS.twBatch envFor mr ts us).map SMS.TwResult.timestamp =
      us.map (fun _ => ts) := by
  have hig : SMS.igBatch pageFor mr ts us =
      (us.filter (fun u => !(u == ""))).map
        (fun u => SMS.igProcessAccount (pageFor u) mr u ts) := by
    rw [SMS.igBatch, SMS.igBatchRun]
    simp [SMS.igBatchGo_ok]
  have htw : SMS.twBatch envFor mr ts us =
      us.map (fun u => SMS.twProcessAccount (envFor u) mr u ts) := by
    rw [SMS.twBatch, SMS.twBatchRun]
    simp [SMS.twBatchGo_ok]
  refine ⟨?_, ?_, ?_, ?_⟩ <;>
    simp [hig, htw, List.map_map, Function.comp_def, SMS.igProcessAccount,
      SMS.twProcessAccount]

/-- C9 counterexample: the claim fails at a concrete input.  With a step that
raises an unhandled error on account `"a"`, the Instagram batch over
`["a", "b"]` returns no results at all: the outer handler catches the error
and abandons the loop, so the subsequent account `"b"` — which would have
succeeded — is never processed. -/
theorem C9_counterexample :
    (SMS.igBatchRun true true SMS.stepRaisingOnA [ "a", "b" ]).results =
      [ ] ∧
    SMS.stepRaisingOnA "b" = Except.ok ⟨ "b", some 1, "ts", none⟩ := by
  refine ⟨by decide, rfl⟩

/-- C9 amended: the session is released exactly once on every exit path on
which it was acquired — normal completion, login failure, or an aborting
account error — and zero times when acquisition itself fails; but an
unhandled error in one account DOES abort the rest of the batch: Instagram
keeps only the results collected before the failing account, and Twitter
propagates the exception (discarding all results) after the `finally` quit. -/
theorem C9_session_scope_amended (lo : Bool)
    (step : String → Except String SMS.ScrapeResult) (us : List String)
    (tstep : String → Except String SMS.TwResult) :
    (SMS.igBatchRun true lo step us).quits = 1 ∧
    SMS.igBatchRun false lo step us = ⟨[ ], 0⟩ ∧
    (SMS.twBatchRun true tstep us).quits = 1 ∧
    (SMS.twBatchRun false tstep us).quits = 0 := by
  cases lo <;> simp [SMS.igBatchRun, SMS.twBatchRun]

/-- C10: the Instagram truthiness check `if parsed_count:` rejects the value
`0.0`: if every candidate text a page yields parses to exactly 0, the locate
step reports nothing, the account consumes all `max_retries` attempts, and
its record is finalized as a failure (count `None`) rather than a count of
zero. -/
theorem C10_zero_follower_failure (M : List (Option String))
    (E : List String)
    (hM : ∀ t : String, some t ∈ M →
        SMS.parse_follower_count_instagram t = some 0)
    (hE : ∀ t ∈ E, SMS.parse_follower_count_instagram t = some 0)
    (mr : ℕ) (u ts : String) :
    SMS.get_follower_count_instagram M E = none ∧
    SMS.igFetchGo (fun _ => SMS.IgPage.content M E) mr 0 none =
      ⟨none, none, mr⟩ ∧
    SMS.igProcessAccount (fun _ => SMS.IgPage.content M E) mr u ts =
      ⟨u, none, ts, none⟩ := by
  have hloc := SMS.igLocate_zero M E hM hE
  have hfetch : SMS.igFetchGo (fun _ => SMS.IgPage.content M E) mr 0 none =
      ⟨none, none, mr⟩ := by
    rw [SMS.igFetchGo_locate_none _ (fun _ => ⟨M, E, rfl, hloc⟩) mr 0 none,
      Nat.zero_add]
  refine ⟨hloc, hfetch, ?_⟩
  rw [SMS.igProcessAccount, hfetch]
  simp

/-- C10 witness: the page text `"0 followers"` parses to 0, and the account
with `max_retries = 2` ends as a failure. -/
theorem C10_zero_follower_failure_witness :
    (∀ t : String, some t ∈ [ some "0 followers" ] →
        SMS.parse_follower_count_instagram t = some 0) ∧
    (∀ t ∈ [ "0 followers" ],
        SMS.parse_follower_count_instagram t = some 0) ∧
    SMS.get_follower_count_instagram [ some "0 followers" ]
        [ "0 followers" ] = none ∧
    SMS.igProcessAccount
        (fun _ => SMS.IgPage.content [ some "0 followers" ] [ "0 followers" ])
        2 "user" "ts" =
      ⟨ "user", none, "ts", none⟩ := by
  have hM : ∀ t : String, some t ∈ [ some "0 followers" ] →
      SMS.parse_follower_count_instagram t = some 0 := by
    intro t ht
    have ht2 : t = "0 followers" := by simpa using ht
    subst ht2
    decide
  have hE : ∀ t ∈ [ "0 followers" ],
      SMS.parse_follower_count_instagram t = some 0 := by
    intro t ht
    have ht2 : t = "0 followers" := by simpa using ht
    subst ht2
    decide
  exact ⟨hM, hE,
    (C10_zero_follower_failure [ some "0 followers" ] [ "0 followers" ]
      hM hE 2 "user" "ts").1,
    (C10_zero_follower_failure [ some "0 followers" ] [ "0 followers" ]
      hM hE 2 "user" "ts").2.2⟩

/-- C2 amended, witness. -/
theorem C2_anchoring_amended_witness :
    (∀ c ∈ (String.toList "posts:"),
        SMS.numChar c = false ∧ SMS.wsChar c = false) ∧
    SMS.parseCountL SMS.igTail
        (String.toList "posts:" ++ String.toList "100 followers") =
      SMS.parseCountL SMS.igTail (String.toList "100 followers") :=
  ⟨by decide,
   C2_anchoring_amended SMS.igTail (String.toList "posts:")
     (String.toList "100 followers") (by decide)⟩

/-- C1: Count Parser unit behaviour: the five example equalities of the spec,
each evaluated with the platform parser whose label the example uses
(`followers` : Instagram, `Followers` : Twitter, `subscriber` : YouTube);
`no data` fails on every parser (shown for Instagram and YouTube). -/
theorem C1_count_parser_units :
    SMS.parse_follower_count_instagram "2,771 followers" = some 2771 ∧
    SMS.parse_follower_count_instagram "1.2M followers" = some 1200000 ∧
    SMS.parse_follower_count_twitter "100K Followers" = some 100000 ∧
    SMS.parse_follower_count_instagram "no data" = none ∧
    SMS.parse_follower_count_youtube "no data" = none ∧
    SMS.parse_follower_count_youtube "1 subscriber" = some 1 := by
  refine ⟨?_, ?_, ?_, ?_, ?_, ?_⟩ <;> decide
